import Mathlib

/-
Verification development for the global heart-disease dashboard's data pipeline
(`preprocessing_scripts` tree and the region classifier in `app.py`).

Frames are modelled as lists of row structures.  A cell of a numeric column is
`Option ℚ` (`none` = NaN).  Metric columns that the code addresses by name are
kept in an association list from column name to cell, so that functions taking
a `target_col` argument can be embedded directly.  External numeric library
routines (numpy `Polynomial.fit`, sklearn models) are abstracted as function
parameters; external lookup libraries (pycountry, pycountry_convert) are
modelled as finite tables, as noted at each definition.
-/

namespace HeartDashboard

/-! ### Named columns of a frame -/

/-- A set of named numeric columns of one row: column name to cell value,
`none` standing for NaN. -/
abbrev Cols := List (String × Option ℚ)

/-- Value of column `c` in a row's named columns; absent columns read as NaN,
matching the claims' use on frames that carry the column. -/
def colVal : Cols → String → Option ℚ
  | [], _ => none
  | p :: t, c => if p.1 = c then p.2 else colVal t c

/-- Whether column `c` is present among the named columns. -/
def hasCol : Cols → String → Bool
  | [], _ => false
  | p :: t, c => decide (p.1 = c) || hasCol t c

/-- Assign value `v` to column `c` (pandas column assignment restricted to an
existing column; the pipeline only assigns columns the frame already has). -/
def setVal : Cols → String → Option ℚ → Cols
  | [], _, _ => []
  | p :: t, c, v => (if p.1 = c then (p.1, v) else p) :: setVal t c v

/-! ### Rows of the merged analytic frame (main_pipeline.py) -/

/-- One observation row of the frames handled by `main_pipeline.py`: the
identifier columns and the named numeric metric columns. -/
structure Row where
  country : String
  code : Option String
  year : Int
  gender : Option String
  metrics : Cols
deriving DecidableEq

/-- Value of metric column `c` of a row. -/
def Row.getCol (r : Row) (c : String) : Option ℚ := colVal r.metrics c

/-- Row with metric column `c` assigned to `v`. -/
def Row.setCol (r : Row) (c : String) (v : Option ℚ) : Row :=
  { r with metrics := setVal r.metrics c v }

/-! ### Polynomial imputation (main_pipeline.py lines 28-35) -/

/-- The `(Year, value)` pairs of the rows whose target column is non-null:
`known_data["Year"]` and `known_data[target_col]` of the source. -/
def knownPoints (df : List Row) (target : String) : List (Int × ℚ) :=
  df.filterMap (fun r => (r.getCol target).map (fun v => (r.year, v)))

/-- Embeds `impute_with_polynomial` of `main_pipeline.py` (lines 28-35).
`fit` abstracts `numpy.polynomial.polynomial.Polynomial.fit` followed by
evaluation: from the known `(Year, value)` pairs it produces the fitted
curve as a function of Year (the fixed degree, default 2, is internal to
`fit`).  If no known data exists the frame is returned unchanged; otherwise
the whole target column is overwritten with the curve evaluated at each
row's Year. -/
def impute_with_polynomial (fit : List (Int × ℚ) → Int → ℚ)
    (df : List Row) (target : String) : List Row :=
  if knownPoints df target = [] then df
  else df.map (fun r => r.setCol target (some (fit (knownPoints df target) r.year)))

/-- Embeds the same-named `impute_with_polynomial` of
`process_diabetes_alcohol.py` (lines 97-116): it fits the curve on the known
`(Year, value)` pairs but assigns predictions only at the rows whose target
is null (`df.loc[df[target_col].isnull(), target_col] = predicted_values`),
leaving known cells untouched.  It has no guard for empty known data. -/
def impute_with_polynomial_da (fit : List (Int × ℚ) → Int → ℚ)
    (df : List Row) (target : String) : List Row :=
  df.map (fun r =>
    if (r.getCol target).isSome then r
    else r.setCol target (some (fit (knownPoints df target) r.year)))

/-! ### KNN imputation (main_pipeline.py lines 45-51) -/

/-- Writes the KNN-transformed target column back into the frame, row by row
(`df[target_col] = imputer.fit_transform(df[impute_cols])[..., -1]`).
`estimate` abstracts the value sklearn's `KNNImputer` (default
`n_neighbors=5`) computes for a missing cell of the target column, as a
function of the whole frame the imputer was fit on, the target column name
and the row position.  Cells that are present pass through
`KNNImputer.fit_transform` unchanged (the imputer's contract: it only
replaces missing values), so only missing cells receive an estimate. -/
def knnWriteBack (estimate : List Row → String → Nat → ℚ) (df0 : List Row)
    (target : String) : Nat → List Row → List Row
  | _, [] => []
  | i, r :: rs =>
      r.setCol target (some ((r.getCol target).getD (estimate df0 target i)))
        :: knnWriteBack estimate df0 target (i + 1) rs

/-- Embeds `impute_with_knn` of `main_pipeline.py` (lines 45-51): the target
column is replaced by the last column of the imputer's output matrix; all
other columns and the row set are untouched. -/
def impute_with_knn (estimate : List Row → String → Nat → ℚ)
    (df : List Row) (target : String) : List Row :=
  knnWriteBack estimate df target 0 df

/-- Relation stating what KNN imputation must preserve of one row: all
identifier columns, every metric column other than the target, and every
previously non-missing target cell. -/
def preservesRow (target : String) (r r' : Row) : Prop :=
  r'.country = r.country ∧ r'.code = r.code ∧ r'.year = r.year
  ∧ r'.gender = r.gender
  ∧ (∀ c, c ≠ target → r'.getCol c = r.getCol c)
  ∧ (∀ v, r.getCol target = some v → r'.getCol target = some v)

/-! ### Pipeline tail: imputation loop and GDP sanity rule
(main_pipeline.py lines 77-87) -/

/-- The designated numeric columns imputed by the pipeline loop. -/
def columns_to_impute : List String :=
  ["Alcohol_Value", "IncidenceRate", "PrevalenceRate", "MortalityRate",
   "Diabetes_Prevalence_Rate", "Activity_Prevalence_Rate",
   "Obesity_Prevalence_Rate", "GDP", "Health_Expenditure (% of GDP)",
   "Life_Expectancy"]

/-- The imputation loop of `main_pipeline.py` (lines 83-84): KNN imputation
applied to each designated column in turn, each call fit on the current
frame. -/
def imputeAllKnn (estimate : List Row → String → Nat → ℚ)
    (df : List Row) : List Row :=
  columns_to_impute.foldl (fun acc c => impute_with_knn estimate acc c) df

/-- Embeds `main_pipeline.py` line 87: GDP cells with a negative value are
set to missing (`merged_df.loc[merged_df['GDP'] < 0, 'GDP'] = np.nan`). -/
def clampNegativeGDP (df : List Row) : List Row :=
  df.map (fun r =>
    match r.getCol "GDP" with
    | some v => if v < 0 then r.setCol "GDP" none else r
    | none => r)

/-- The imputation-and-sanity tail of `main_pipeline.py` (lines 82-87) in
the order the code performs it: impute all designated columns, then null
out negative GDP cells. -/
def pipeline_tail (estimate : List Row → String → Nat → ℚ)
    (df : List Row) : List Row :=
  clampNegativeGDP (imputeAllKnn estimate df)

/-- The order claim C6 asserts, written from the spec's words for
comparison with `pipeline_tail`: negative GDP values replaced by missing
before imputation runs. -/
def pipeline_tail_claimed (estimate : List Row → String → Nat → ℚ)
    (df : List Row) : List Row :=
  imputeAllKnn estimate (clampNegativeGDP df)

/-! ### Outer-join merge (main_pipeline.py lines 70-75) -/

/-- Combines a matched pair of rows of a merge: the join-key columns of the
two rows are equal; the left row's identifier columns are kept (its gender
filled from the right when the left frame lacks that column) and the right
row's metric columns are appended after the left's. -/
def mergeRows (a b : Row) : Row :=
  { a with gender := a.gender <|> b.gender, metrics := a.metrics ++ b.metrics }

/-- Models `pandas.merge(..., how='outer')` at the granularity the coverage
claim needs: every left row appears, combined with its first key match on
the right when one exists, and every right row without a key match on the
left appears on its own.  The cartesian fan-out pandas performs on repeated
keys is collapsed to the first match, which does not change the set of
distinct key tuples present in the result. -/
def outerJoinOn {K : Type} [DecidableEq K] (key : Row → K)
    (l r : List Row) : List Row :=
  l.map (fun a =>
    match r.find? (fun b => decide (key b = key a)) with
    | some b => mergeRows a b
    | none => a)
  ++ r.filter (fun b => !(l.any (fun a => decide (key a = key b))))

/-- The join keys of the first merge: Country_Code, Country, Year, Gender. -/
def keyCCYG (r : Row) : Option String × String × Int × Option String :=
  (r.code, r.country, r.year, r.gender)

/-- The join keys of the later merges: Country_Code, Country, Year. -/
def keyCCY (r : Row) : Option String × String × Int :=
  (r.code, r.country, r.year)

/-- The (Country_Code, Year) pair of a row. -/
def cyOf (r : Row) : Option String × Int := (r.code, r.year)

/-- The (Country_Code, Year) coverage of a frame. -/
def coverage (df : List Row) : List (Option String × Int) := df.map cyOf

/-- Embeds the merge chain of `main_pipeline.py` (lines 70-75): heart
disease outer-joined with diabetes/alcohol on (Country_Code, Country,
Year, Gender), then with activity/obesity/GDP and with overweight/health
on (Country_Code, Country, Year). -/
def merged_df (heart diabetes gdp weight : List Row) : List Row :=
  outerJoinOn keyCCY
    (outerJoinOn keyCCY (outerJoinOn keyCCYG heart diabetes) gdp) weight

/-! ### Country names and the code resolver
(main_pipeline.py lines 8-16, process_disease_metrics.py lines 57-68) -/

/-- Country display names are modelled as lists of ASCII character codes;
the Python string operations the resolver relies on (`str.strip`,
`str.title`) are embedded at this level, restricted to ASCII. -/
abbrev CName := List Nat

/-- ASCII whitespace, as removed by `str.strip`. -/
def isSpaceN (c : Nat) : Bool := decide (c = 32 ∨ (9 ≤ c ∧ c ≤ 13))

/-- ASCII uppercase letter. -/
def isUpperN (c : Nat) : Bool := decide (65 ≤ c ∧ c ≤ 90)

/-- ASCII lowercase letter. -/
def isLowerN (c : Nat) : Bool := decide (97 ≤ c ∧ c ≤ 122)

/-- ASCII cased letter: the word-boundary test of `str.title`. -/
def isAlphaN (c : Nat) : Bool := isUpperN c || isLowerN c

/-- Lower-case one ASCII character code. -/
def lowerN (c : Nat) : Nat := if isUpperN c then c + 32 else c

/-- Upper-case one ASCII character code. -/
def upperN (c : Nat) : Nat := if isLowerN c then c - 32 else c

/-- `str.strip`: drop leading and trailing whitespace. -/
def stripN (s : CName) : CName :=
  ((s.dropWhile isSpaceN).reverse.dropWhile isSpaceN).reverse

/-- `str.title`, character by character: a letter that follows a non-letter
is upper-cased, a letter that follows a letter is lower-cased; the Bool
argument records whether the previous character was a letter. -/
def titleAux : Bool → CName → CName
  | _, [] => []
  | prev, c :: cs =>
      (if prev then lowerN c else upperN c) :: titleAux (isAlphaN c) cs

/-- `str.title` of a whole name. -/
def titleN (s : CName) : CName := titleAux false s

/-- Embeds `get_country_code` (identical in `main_pipeline.py` lines 8-16
and `process_disease_metrics.py` lines 57-68 up to the override table's
identifier): normalize the name by strip + title-case, consult the static
override table first, else query the ISO registry; a registry
`LookupError` is returned as `none`.  `overrides` abstracts the
`dictionary` module's table and `registry` abstracts
`pycountry.countries.lookup`. -/
def get_country_code (overrides : List (CName × String))
    (registry : CName → Option String) (name : CName) : Option String :=
  let n := titleN (stripN name)
  match overrides.lookup n with
  | some c => some c
  | none => registry n

/-- Two names differ only in letter casing and leading/trailing
whitespace: after stripping, they agree character by character up to case. -/
abbrev caseVariants (x y : CName) : Prop :=
  (stripN x).map lowerN = (stripN y).map lowerN

/-- Modelled from the spec: the `dictionary` module's manual override table
(`country_code_mapping` / `country_code_dict`), which belongs to the
repository but is not under src/ — "a static manual-override table first
(covers historical/alternate names the standard registry misses)".
Modelled as a finite table with representative entries ("France",
"South Korea"). -/
def country_code_mapping : List (CName × String) :=
  [([70, 114, 97, 110, 99, 101], "FRA"),
   ([83, 111, 117, 116, 104, 32, 75, 111, 114, 101, 97], "KOR")]

/-- Models the external `pycountry.countries.lookup` as a finite table from
registry names to alpha-3 codes (representative subset: "Germany"); names
outside the registry raise `LookupError`, i.e. `none`. -/
def pycountry_lookup : CName → Option String :=
  fun n => (([([71, 101, 114, 109, 97, 110, 121], "DEU")]) :
    List (CName × String)).lookup n

/-! ### Disease-metrics cleaning tail and the world-health code filter -/

/-- One row of the combined disease-metrics frame at the point where
country codes are assigned (`process_disease_metrics.py` lines 105-107):
Gender and Age_Group are already label-encoded integers. -/
structure DiseaseRow where
  country : CName
  gender : Nat
  ageGroup : Nat
  year : Int
  rates : Cols
  code : Option String
deriving DecidableEq

/-- Embeds the country-code step of `process_disease_metrics`
(lines 105-107), which runs after the internal merges and imputation:
Country is stripped, Country_Code is assigned the resolver's result
(possibly `none`), and no row is dropped. -/
def assign_country_codes (overrides : List (CName × String))
    (registry : CName → Option String) (df : List DiseaseRow) :
    List DiseaseRow :=
  df.map (fun r =>
    { r with country := stripN r.country,
             code := get_country_code overrides registry (stripN r.country) })

/-- One row of the world-health frame at the code-validity filter of
`process_overweight_health.py` (lines 39-41). -/
structure WRow where
  code : String
  country : String
  year : Int
  healthExp : Option ℚ
  lifeExpect : Option ℚ
deriving DecidableEq

/-- Embeds `df = df[df['country_code'].isin(valid_country_codes)]`
(`process_overweight_health.py` lines 40-41), `valid` being the set of
pycountry alpha-3 codes. -/
def filter_valid_codes (valid : List String) (df : List WRow) : List WRow :=
  df.filter (fun r => valid.contains r.code)

/-! ### Region classification (app.py lines 19-56) -/

/-- The continent-code to region-name table of `app.py` (lines 19-22). -/
def continent_map : List (String × String) :=
  [("NA", "North America"), ("SA", "South America"), ("EU", "Europe"),
   ("AS", "Asia"), ("OC", "Oceania"), ("AF", "Africa")]

/-- The manual region override table of `app.py` (lines 24-25). -/
def manual_region_mapping : List (String × String) :=
  [("XKX", "Europe"), ("OWID_KOS", "Europe"), ("SXM", "North America"),
   ("TLS", "Asia")]

/-- Models the external pycountry ISO 3166-1 registry as a finite alpha-3
to alpha-2 table (a representative subset containing the codes this
development exercises); `pycountry.countries.get(alpha_3=...)` returns the
entry or None. -/
def pycountry_alpha3_to_alpha2 : List (String × String) :=
  [("USA", "US"), ("FRA", "FR"), ("BRA", "BR"), ("AUS", "AU"),
   ("NGA", "NG"), ("CHN", "CN"), ("VAT", "VA"), ("TLS", "TL"),
   ("SXM", "SX"), ("ESH", "EH")]

/-- Embeds `alpha3_to_alpha2` (`app.py` lines 27-38). -/
def alpha3_to_alpha2 (code : String) : Option String :=
  pycountry_alpha3_to_alpha2.lookup code

/-- Models the external `pycountry_convert` table
`COUNTRY_ALPHA2_TO_CONTINENT_CODE` (representative subset).  The library's
table does not cover every ISO alpha-2 code: VA, TL, SX, EH, PN, TF and UM
are among the codes absent from it, on which
`country_alpha2_to_continent_code` raises `KeyError`; the repository's
`manual_region_mapping` entries for TLS and SXM work around exactly two of
these gaps. -/
def alpha2_to_continent_code : List (String × String) :=
  [("US", "NA"), ("FR", "EU"), ("BR", "SA"), ("AU", "OC"),
   ("NG", "AF"), ("CN", "AS")]

/-- Embeds `get_region` (`app.py` lines 41-56).  A `KeyError` escaping
`pc.country_alpha2_to_continent_code`, or the error from passing it None
after a failed alpha-2 conversion, is modelled as `Except.error`; a normal
return is `Except.ok`. -/
def get_region (code : String) : Except String String :=
  match manual_region_mapping.lookup code with
  | some region => Except.ok region
  | none =>
    match (if code.length = 3 then alpha3_to_alpha2 code else some code) with
    | none => Except.error "TypeError"
    | some c2 =>
      match alpha2_to_continent_code.lookup c2 with
      | none => Except.error "KeyError"
      | some cc =>
          Except.ok ((continent_map.lookup cc).getD "Unknown Region")

/-- The fixed region enumeration together with the sentinel. -/
def region_names : List String :=
  ["North America", "South America", "Europe", "Asia", "Oceania", "Africa",
   "Unknown Region"]

/-- `get_region` returned normally with one of the fixed region names or
the sentinel. -/
def returnsRegionName (e : Except String String) : Prop :=
  ∃ region, e = Except.ok region ∧ region ∈ region_names

/-! ### Adding missing years (process_diabetes_alcohol.py lines 28-51,
main_pipeline.py lines 18-26) -/

/-- One row of the diabetes frame at the add-missing-years step: Location,
Code and Year are the key columns; every other column is a named cell. -/
structure DbRow where
  location : String
  code : Option String
  year : Int
  extras : Cols
deriving DecidableEq

/-- First-occurrence-order distinct values: pandas `Series.unique`. -/
def pdUnique (l : List String) : List String :=
  l.foldl (fun acc a => if a ∈ acc then acc else acc ++ [a]) []

/-- The Code of the first row of the frame whose Location is `c`
(`df[df['Location'] == country]['Code'].iloc[0]`). -/
def firstCode (df : List DbRow) (c : String) : Option String :=
  match df.find? (fun r => r.location == c) with
  | some r => r.code
  | none => none

/-- The names of the frame's non-key columns (all rows share the schema of
the first row). -/
def extraCols (df : List DbRow) : List String :=
  match df with
  | [] => []
  | r :: _ => r.extras.map Prod.fst

/-- The synthesized year axis `list(range(1960, 1990))` of both
implementations. -/
def missingYears : List Int := (List.range' 1960 30).map Nat.cast

/-- The placeholder rows both implementations generate: one per (country,
year in 1960..1989), keyed by the country's first Code, with every other
column missing. -/
def placeholderRows (df : List DbRow) : List DbRow :=
  (pdUnique (df.map (fun r => r.location))).flatMap (fun c =>
    missingYears.map (fun y =>
      { location := c, code := firstCode df c, year := y,
        extras := (extraCols df).map (fun n => (n, none)) }))

/-- The row order of `sort_values(by=['Location', 'Year'])`. -/
def rowLE (a b : DbRow) : Bool :=
  decide (a.location < b.location)
    || (a.location == b.location && decide (a.year ≤ b.year))

/-- Embeds `_adding_missing_years` (`process_diabetes_alcohol.py` lines
28-51): concatenate the frame with the placeholder rows — without any
deduplication against the organic rows — and sort by (Location, Year). -/
def adding_missing_years (df : List DbRow) : List DbRow :=
  (df ++ placeholderRows df).mergeSort rowLE

/-- Embeds `add_missing_years` (`main_pipeline.py` lines 18-26): it builds
`pd.DataFrame(new_rows)` from the placeholder rows alone, so its result
contains only the synthesized rows (there the key columns are named
Country and Country_Code). -/
def add_missing_years (df : List DbRow) : List DbRow :=
  placeholderRows df

/-- The frame contains a placeholder row for country `c` and year `y`:
keyed like the organic rows of `df` (same Country and first Country_Code)
with every metric column missing. -/
def hasPlaceholder (out df : List DbRow) (c : String) (y : Int) : Prop :=
  ∃ r ∈ out, r.location = c ∧ r.year = y ∧ r.code = firstCode df c
    ∧ ∀ p ∈ r.extras, p.2 = none

/-! ### Disease-metrics imputation (process_disease_metrics.py lines 17-54) -/

/-- The `(Year, value)` training pairs of the rows with a known target:
`X_train`, `y_train` of the source. -/
def trainPairs (df : List DiseaseRow) (target : String) : List (Int × ℚ) :=
  df.filterMap (fun r => (colVal r.rates target).map (fun v => (r.year, v)))

/-- Embeds `_impute_with_polynomial_fit` (`process_disease_metrics.py`
lines 17-54) with `predictor_columns = ['Year']`, as it is invoked at line
103.  If the target column has no missing value the frame is returned
unchanged (lines 25-27).  Year is always present, so `df_valid = df` and
the line-36 empty check fires only on an empty frame.  Otherwise a model
(degree-2 polynomial features with linear regression, abstracted as
`model`) is trained on the rows with known target, and each missing cell —
and only those — is assigned `np.maximum(prediction, 0)` (line 52). -/
def impute_with_polynomial_fit (model : List (Int × ℚ) → Int → ℚ)
    (df : List DiseaseRow) (target : String) : List DiseaseRow :=
  if df.countP (fun r => (colVal r.rates target).isNone) = 0 then df
  else if df.isEmpty then df
  else
    df.map (fun r =>
      if (colVal r.rates target).isSome then r
      else { r with rates := setVal r.rates target
                      (some (max (model (trainPairs df target) r.year) 0)) })

/-! ### Concrete fixtures for the resolver claims -/

/-- The name " fRaNcE": a casing/whitespace variant of "France". -/
def nameFranceUpper : CName := [32, 102, 82, 97, 78, 99, 69]

/-- The name "France ". -/
def nameFrancePad : CName := [70, 114, 97, 110, 99, 101, 32]

/-- A one-row disease frame whose country name "Atlantis" resolves to no
alpha-3 code. -/
def dfAtlantis : List DiseaseRow :=
  [⟨[65, 116, 108, 97, 110, 116, 105, 115], 0, 0, 2000,
    [("IncidenceRate", some 1)], none⟩]

/-- A one-row diabetes frame whose organic row already lies in the
1960-1989 synthesized range. -/
def dfDiab1985 : List DbRow :=
  [⟨"X", some "XXX", 1985, [("Prevalence of diabetes (18+ years)", some 1)]⟩]

/-- A concrete stand-in regression model that always predicts a negative
value, exercising the clamp at zero. -/
def modelNeg : List (Int × ℚ) → Int → ℚ := fun _ _ => -3

/-- A two-row disease frame with one known and one missing rate cell. -/
def dfDisease : List DiseaseRow :=
  [⟨[88], 0, 0, 2000, [("IncidenceRate", some 2)], none⟩,
   ⟨[88], 0, 0, 2001, [("IncidenceRate", none)], none⟩]

/-! ### Concrete fixtures for polynomial imputation -/

/-- A concrete degenerate stand-in for the fitted curve, used to instantiate
the abstract `fit` parameter at concrete inputs. -/
def fitZero : List (Int × ℚ) → Int → ℚ := fun _ _ => 0

/-- A concrete stand-in fitted curve depending on the year. -/
def fitYear : List (Int × ℚ) → Int → ℚ := fun _ y => (y : ℚ)

/-- Frame with two known target cells and one missing one. -/
def dfTwoKnown : List Row :=
  [⟨"A", some "AAA", 2000, none, [("P", some 5)]⟩,
   ⟨"A", some "AAA", 2001, none, [("P", some 7)]⟩,
   ⟨"A", some "AAA", 2002, none, [("P", none)]⟩]

/-- Frame with two known target cells at the same Year holding different
values (two countries observed in the same year — the polynomial fit of the
pipeline is global over the column, not per-country), plus one missing
cell.  No function of Year can pass through both known cells. -/
def dfConflict : List Row :=
  [⟨"A", some "AAA", 2000, none, [("P", some 0)]⟩,
   ⟨"B", some "BBB", 2000, none, [("P", some 2)]⟩,
   ⟨"C", some "CCC", 2001, none, [("P", none)]⟩]

/-- Frame with exactly one known target cell and one missing one. -/
def dfOneKnown : List Row :=
  [⟨"A", some "AAA", 2000, none, [("P", some 1)]⟩,
   ⟨"A", some "AAA", 2001, none, [("P", none)]⟩]

/-- Frame whose target column is entirely missing. -/
def dfNoneKnown : List Row :=
  [⟨"A", some "AAA", 2000, none, [("P", none)]⟩]

/-! ### Concrete fixtures for the KNN claims -/

/-- A concrete constant stand-in for the KNN estimate. -/
def estFive : List Row → String → Nat → ℚ := fun _ _ _ => 5

/-- A concrete KNN-estimate stand-in that depends on the known values of the
column it fills: the sum of the column's non-missing cells in the frame the
imputer was fit on. -/
def estSum : List Row → String → Nat → ℚ :=
  fun f c _ => (f.filterMap (fun r => r.getCol c)).foldr (· + ·) 0

/-- One-row frame with a known GDP cell and a missing Life_Expectancy cell. -/
def dfKnn : List Row :=
  [⟨"A", some "AAA", 2000, none, [("GDP", some 3), ("Life_Expectancy", none)]⟩]

/-- Two-row frame with one negative known GDP cell and one missing one. -/
def dfGDP : List Row :=
  [⟨"A", some "AAA", 2000, none, [("GDP", some (-100))]⟩,
   ⟨"B", some "BBB", 2000, none, [("GDP", none)]⟩]

/-- One-row frame with a missing GDP cell. -/
def dfGDPOne : List Row :=
  [⟨"A", some "AAA", 2000, none, [("GDP", none)]⟩]

/-- A cleaned diabetes/alcohol frame containing a country that appears in
no other source. -/
def dfDiabetesOnly : List Row :=
  [⟨"Atlantis", some "ATL", 2000, some "Male",
    [("Diabetes_Prevalence_Rate", some 3)]⟩]

/-! ## Theorems -/

/-! ### Association-list column lemmas -/

theorem colVal_setVal_same (l : Cols) (c : String) (v : Option ℚ)
    (h : hasCol l c = true) : colVal (setVal l c v) c = v := by
  induction l with
  | nil => simp [hasCol] at h
  | cons p t ih =>
    by_cases hp : p.1 = c
    · simp [setVal, colVal, hp]
    · simp [hasCol, hp] at h
      simp [setVal, colVal, hp, ih h]

theorem colVal_setVal_other (l : Cols) (c c' : String) (v : Option ℚ)
    (h : c' ≠ c) : colVal (setVal l c v) c' = colVal l c' := by
  induction l with
  | nil => rfl
  | cons p t ih =>
    simp only [setVal, colVal]
    by_cases hp : p.1 = c
    · have hne : p.1 ≠ c' := fun he => h (he.symm.trans hp)
      rw [if_pos hp]
      show (if p.1 = c' then v else colVal (setVal t c v) c') = _
      rw [if_neg hne, if_neg hne, ih]
    · rw [if_neg hp]
      show (if p.1 = c' then p.2 else colVal (setVal t c v) c') = _
      by_cases hp' : p.1 = c'
      · rw [if_pos hp', if_pos hp']
      · rw [if_neg hp', if_neg hp', ih]

theorem colVal_setVal_some (l : Cols) (c : String) (v : Option ℚ) (w : ℚ)
    (h : colVal l c = some w) : colVal (setVal l c v) c = v := by
  induction l with
  | nil => simp [colVal] at h
  | cons p t ih =>
    by_cases hp : p.1 = c
    · simp [setVal, colVal, hp]
    · simp [colVal, hp] at h
      simp [setVal, colVal, hp, ih h]

/-! ### C1: polynomial imputation -/

/-- C1 (amended): `main_pipeline.impute_with_polynomial` returns the frame
unchanged when there are no known points, and with at least 2 known points
it overwrites every row's target cell with the fitted curve evaluated at
that row's Year, so no cell of the column is left missing.  The same-named
`process_diabetes_alcohol.impute_with_polynomial` instead writes only the
previously-missing cells: a previously-known cell keeps its original value
(it is not overwritten by the curve). -/
theorem c1_polynomial_imputation (fit : List (Int × ℚ) → Int → ℚ)
    (df : List Row) (target : String) :
    (knownPoints df target = [] → impute_with_polynomial fit df target = df)
    ∧ (2 ≤ (knownPoints df target).length →
        impute_with_polynomial fit df target
          = df.map (fun r => r.setCol target (some (fit (knownPoints df target) r.year)))
        ∧ ∀ r ∈ df, hasCol r.metrics target = true →
            (r.setCol target (some (fit (knownPoints df target) r.year))).getCol target
              = some (fit (knownPoints df target) r.year))
    ∧ (∀ (i : Nat) (r : Row) (v : ℚ), df[i]? = some r → r.getCol target = some v →
        (impute_with_polynomial_da fit df target)[i]? = some r)
    ∧ (∀ (i : Nat) (r : Row), df[i]? = some r → r.getCol target = none →
        (impute_with_polynomial_da fit df target)[i]?
          = some (r.setCol target (some (fit (knownPoints df target) r.year)))) := by
  refine ⟨fun h => by simp [impute_with_polynomial, h], fun h2 => ⟨?_, ?_⟩, ?_, ?_⟩
  · have hne : knownPoints df target ≠ [] := by
      intro h0
      rw [h0] at h2
      simp at h2
    simp [impute_with_polynomial, hne]
  · intro r _ hcol
    exact colVal_setVal_same r.metrics target _ hcol
  · intro i r v hi hv
    simp [impute_with_polynomial_da, List.getElem?_map, hi, hv]
  · intro i r hi hv
    simp [impute_with_polynomial_da, List.getElem?_map, hi, hv]

/-- Witness for C1: on a concrete frame with two known points the main
pipeline version overwrites the whole column with the fitted curve. -/
theorem c1_polynomial_imputation_witness :
    impute_with_polynomial fitYear dfTwoKnown "P"
      = dfTwoKnown.map
          (fun r => r.setCol "P" (some (fitYear (knownPoints dfTwoKnown "P") r.year))) :=
  ((c1_polynomial_imputation fitYear dfTwoKnown "P").2.1 (by decide)).1

/-- Counterexample for C1 as stated: in the `process_diabetes_alcohol`
version of `impute_with_polynomial`, on a frame whose two known cells lie
at the same Year 2000 with the different values 0 and 2, both cells are
preserved unchanged (the function assigns predictions only at null cells,
so this holds for every fitted curve; the stand-in `fitZero` merely makes
the evaluation concrete).  Whatever value the fitted polynomial — numpy's
degree-2 least-squares fit of the known data included — takes at year
2000, it is one value, so the two preserved cells cannot both equal the
fitted curve at their Year: not every row's target is the fitted
polynomial evaluated at its Year. -/
theorem c1_counterexample :
    2 ≤ (knownPoints dfConflict "P").length
    ∧ (impute_with_polynomial_da fitZero dfConflict "P")[0]?
        = some ⟨"A", some "AAA", 2000, none, [("P", some 0)]⟩
    ∧ (impute_with_polynomial_da fitZero dfConflict "P")[1]?
        = some ⟨"B", some "BBB", 2000, none, [("P", some 2)]⟩
    ∧ (0 : ℚ) ≠ 2 := by
  refine ⟨by decide, by rfl, by rfl, by norm_num⟩

/-! ### C7: degenerate cases of polynomial imputation -/

/-- C7 (amended): with 0 known points `impute_with_polynomial` returns the
frame unchanged; the code guards only the empty case, not the
one-known-point case. -/
theorem c7_polynomial_skip_empty (fit : List (Int × ℚ) → Int → ℚ)
    (df : List Row) (target : String)
    (h : knownPoints df target = []) :
    impute_with_polynomial fit df target = df := by
  simp [impute_with_polynomial, h]

/-- Witness for C7: a concrete frame whose target column is all missing is
returned unchanged. -/
theorem c7_polynomial_skip_empty_witness :
    impute_with_polynomial fitZero dfNoneKnown "P" = dfNoneKnown :=
  c7_polynomial_skip_empty fitZero dfNoneKnown "P" (by decide)

/-- Counterexample for C7 as stated: with exactly one known point the frame
is not returned unchanged — the fit is still performed and the column is
overwritten (numpy's least-squares fit proceeds, rank-deficiently, on a
single point; `fitZero` instantiates the resulting curve). -/
theorem c7_counterexample :
    (knownPoints dfOneKnown "P").length = 1
    ∧ impute_with_polynomial fitZero dfOneKnown "P" ≠ dfOneKnown := by
  decide

/-! ### C4: KNN imputation -/

theorem knnWriteBack_length (est : List Row → String → Nat → ℚ)
    (df0 : List Row) (target : String) :
    ∀ (j : Nat) (rs : List Row),
      (knnWriteBack est df0 target j rs).length = rs.length := by
  intro j rs
  induction rs generalizing j with
  | nil => rfl
  | cons r t ih => simp [knnWriteBack, ih]

theorem knnWriteBack_getElem? (est : List Row → String → Nat → ℚ)
    (df0 : List Row) (target : String) :
    ∀ (rs : List Row) (j i : Nat),
      (knnWriteBack est df0 target j rs)[i]?
        = (rs[i]?).map (fun r =>
            r.setCol target (some ((r.getCol target).getD (est df0 target (j + i))))) := by
  intro rs
  induction rs with
  | nil => intro j i; rfl
  | cons r t ih =>
    intro j i
    cases i with
    | zero => simp [knnWriteBack]
    | succ i =>
      have := ih (j + 1) i
      simp only [knnWriteBack, List.getElem?_cons_succ, this]
      have harith : j + 1 + i = j + (i + 1) := by omega
      rw [harith]

/-- C4 (confirmed): `impute_with_knn` changes only the missing cells of the
target column: the row set and length are unchanged, every identifier
column and every metric column other than the target is unchanged in every
row, and every previously non-missing target cell keeps its exact value. -/
theorem c4_knn_only_fills_gaps (est : List Row → String → Nat → ℚ)
    (df : List Row) (target : String) :
    (impute_with_knn est df target).length = df.length
    ∧ ∀ (i : Nat) (r r' : Row), df[i]? = some r →
        (impute_with_knn est df target)[i]? = some r' →
        preservesRow target r r' := by
  constructor
  · exact knnWriteBack_length est df target 0 df
  · intro i r r' hi hi'
    rw [impute_with_knn, knnWriteBack_getElem?, hi] at hi'
    have hi2 : some (r.setCol target
        (some ((r.getCol target).getD (est df target (0 + i))))) = some r' := hi'
    injection hi2 with hi3
    subst hi3
    refine ⟨rfl, rfl, rfl, rfl, ?_, ?_⟩
    · intro c hc
      exact colVal_setVal_other r.metrics target c _ hc
    · intro v hv
      show colVal (setVal r.metrics target _) target = some v
      rw [colVal_setVal_some r.metrics target _ v hv]
      rw [show r.getCol target = some v from hv]
      rfl

/-- Witness for C4 at a concrete frame: the known GDP cell and the row
identity are preserved while the missing Life_Expectancy cell is filled. -/
theorem c4_knn_only_fills_gaps_witness :
    preservesRow "Life_Expectancy"
      ⟨"A", some "AAA", 2000, none, [("GDP", some 3), ("Life_Expectancy", none)]⟩
      ⟨"A", some "AAA", 2000, none, [("GDP", some 3), ("Life_Expectancy", some 5)]⟩ :=
  (c4_knn_only_fills_gaps estFive dfKnn "Life_Expectancy").2 0 _ _ (by rfl) (by rfl)

/-! ### C5: outer-join coverage -/

theorem cyOf_mergeRows (a b : Row) : cyOf (mergeRows a b) = cyOf a := rfl

theorem coverage_outerJoinOn_left {K : Type} [DecidableEq K] (key : Row → K)
    (l r : List Row) (p : Option String × Int) (hp : p ∈ coverage l) :
    p ∈ coverage (outerJoinOn key l r) := by
  rcases List.mem_map.mp hp with ⟨a, ha, rfl⟩
  apply List.mem_map.mpr
  refine ⟨match r.find? (fun b => decide (key b = key a)) with
          | some b => mergeRows a b
          | none => a, ?_, ?_⟩
  · apply List.mem_append_left
    exact List.mem_map.mpr ⟨a, ha, rfl⟩
  · cases r.find? (fun b => decide (key b = key a)) with
    | none => rfl
    | some b => exact cyOf_mergeRows a b

theorem coverage_outerJoinOn_right {K : Type} [DecidableEq K] (key : Row → K)
    (hdet : ∀ x y : Row, key x = key y → cyOf x = cyOf y)
    (l r : List Row) (p : Option String × Int) (hp : p ∈ coverage r) :
    p ∈ coverage (outerJoinOn key l r) := by
  rcases List.mem_map.mp hp with ⟨b, hb, rfl⟩
  by_cases hmatch : ∃ a ∈ l, key a = key b
  · rcases hmatch with ⟨a, ha, hk⟩
    have hmem := coverage_outerJoinOn_left key l r (cyOf a)
      (List.mem_map.mpr ⟨a, ha, rfl⟩)
    rwa [hdet a b hk] at hmem
  · apply List.mem_map.mpr
    refine ⟨b, ?_, rfl⟩
    apply List.mem_append_right
    apply List.mem_filter.mpr
    refine ⟨hb, ?_⟩
    rw [Bool.not_eq_true']
    rw [List.any_eq_false]
    intro a ha htrue
    exact hmatch ⟨a, ha, of_decide_eq_true htrue⟩

theorem keyCCYG_det (x y : Row) (h : keyCCYG x = keyCCYG y) :
    cyOf x = cyOf y := by
  simp only [keyCCYG, Prod.mk.injEq] at h
  simp only [cyOf, Prod.mk.injEq]
  exact ⟨h.1, h.2.2.1⟩

theorem keyCCY_det (x y : Row) (h : keyCCY x = keyCCY y) :
    cyOf x = cyOf y := by
  simp only [keyCCY, Prod.mk.injEq] at h
  simp only [cyOf, Prod.mk.injEq]
  exact ⟨h.1, h.2.2⟩

/-- C5 (confirmed): the distinct (Country_Code, Year) pairs of the merged
table contain the union of the (Country_Code, Year) pairs of all four
cleaned input frames — the outer-join chain never reduces coverage, so a
country present in only one source still appears in the merged table. -/
theorem c5_merge_preserves_coverage (heart diabetes gdp weight : List Row)
    (p : Option String × Int)
    (hp : p ∈ coverage heart ∨ p ∈ coverage diabetes
          ∨ p ∈ coverage gdp ∨ p ∈ coverage weight) :
    p ∈ coverage (merged_df heart diabetes gdp weight) := by
  rw [merged_df]
  rcases hp with hp | hp | hp | hp
  · exact coverage_outerJoinOn_left keyCCY _ weight p
      (coverage_outerJoinOn_left keyCCY _ gdp p
        (coverage_outerJoinOn_left keyCCYG heart diabetes p hp))
  · exact coverage_outerJoinOn_left keyCCY _ weight p
      (coverage_outerJoinOn_left keyCCY _ gdp p
        (coverage_outerJoinOn_right keyCCYG keyCCYG_det heart diabetes p hp))
  · exact coverage_outerJoinOn_left keyCCY _ weight p
      (coverage_outerJoinOn_right keyCCY keyCCY_det _ gdp p hp)
  · exact coverage_outerJoinOn_right keyCCY keyCCY_det _ weight p hp

/-- Witness for C5: a country present only in the diabetes source still
appears in the merged coverage. -/
theorem c5_merge_preserves_coverage_witness :
    (some "ATL", (2000 : Int)) ∈ coverage (merged_df [] dfDiabetesOnly [] []) :=
  c5_merge_preserves_coverage [] dfDiabetesOnly [] [] (some "ATL", 2000)
    (Or.inr (Or.inl (by decide)))

/-! ### C9: normalization invariance of the resolver -/

theorem upperN_congr (c₁ c₂ : Nat) (h : lowerN c₁ = lowerN c₂) :
    upperN c₁ = upperN c₂ := by
  simp only [lowerN, upperN, isUpperN, isLowerN, decide_eq_true_eq] at *
  split_ifs at h ⊢ <;> omega

theorem isAlphaN_congr (c₁ c₂ : Nat) (h : lowerN c₁ = lowerN c₂) :
    isAlphaN c₁ = isAlphaN c₂ := by
  simp only [lowerN, isUpperN, decide_eq_true_eq] at h
  simp only [isAlphaN, isUpperN, isLowerN, ← Bool.decide_or]
  rw [decide_eq_decide]
  split_ifs at h <;> omega

theorem titleAux_congr (s₁ : CName) :
    ∀ (s₂ : CName), s₁.map lowerN = s₂.map lowerN →
      ∀ b, titleAux b s₁ = titleAux b s₂ := by
  induction s₁ with
  | nil =>
    intro s₂ h b
    have : s₂ = [] := by
      cases s₂ with
      | nil => rfl
      | cons c t => simp at h
    rw [this]
  | cons c t ih =>
    intro s₂ h b
    cases s₂ with
    | nil => simp at h
    | cons c' t' =>
      simp only [List.map_cons, List.cons.injEq] at h
      have hhead : (if b then lowerN c else upperN c)
          = (if b then lowerN c' else upperN c') := by
        cases b
        · simp only [if_neg Bool.false_ne_true]
          exact upperN_congr c c' h.1
        · simpa using h.1
      simp only [titleAux]
      rw [hhead, isAlphaN_congr c c' h.1, ih t' h.2 (isAlphaN c')]

/-- C9 (confirmed): `get_country_code` returns the same result on any two
names that differ only in letter casing and leading/trailing whitespace,
for every override table and registry: resolution is invariant under the
strip-and-title-case normalization. -/
theorem c9_resolution_normalization_invariant
    (overrides : List (CName × String)) (registry : CName → Option String)
    (x y : CName) (h : caseVariants x y) :
    get_country_code overrides registry x
      = get_country_code overrides registry y := by
  have ht : titleN (stripN x) = titleN (stripN y) :=
    titleAux_congr (stripN x) (stripN y) h false
  simp only [get_country_code, ht]

/-- Witness for C9: " fRaNcE" and "France " resolve identically under the
modelled override table and registry. -/
theorem c9_resolution_normalization_invariant_witness :
    get_country_code country_code_mapping pycountry_lookup nameFranceUpper
      = get_country_code country_code_mapping pycountry_lookup nameFrancePad :=
  c9_resolution_normalization_invariant country_code_mapping pycountry_lookup
    nameFranceUpper nameFrancePad (by decide)

/-! ### C2: unresolvable rows and the merge key -/

/-- C2 (amended): the disease-metrics cleaner does not exclude rows whose
country cannot be resolved — it keeps every row (the output has the same
length and the i-th output row is the i-th input row with Country stripped
and Country_Code set to the resolver's result, which may be absent) — while
the world-health cleaner does drop rows whose code is not a valid ISO
code before its merge. -/
theorem c2_resolution_row_policy (overrides : List (CName × String))
    (registry : CName → Option String) (df : List DiseaseRow) :
    (assign_country_codes overrides registry df).length = df.length
    ∧ (∀ (i : Nat) (r : DiseaseRow), df[i]? = some r →
        (assign_country_codes overrides registry df)[i]?
          = some { r with
                   country := stripN r.country,
                   code := get_country_code overrides registry (stripN r.country) })
    ∧ ∀ (valid : List String) (wdf : List WRow) (r : WRow),
        r ∈ filter_valid_codes valid wdf → r.code ∈ valid := by
  refine ⟨List.length_map df _, ?_, ?_⟩
  · intro i r hi
    simp [assign_country_codes, List.getElem?_map, hi]
  · intro valid wdf r hr
    have hc := (List.mem_filter.mp hr).2
    simpa using hc

/-- Witness for C2: the "Atlantis" row is kept by the disease-metrics
cleaner, with its Country_Code assigned by the resolver. -/
theorem c2_resolution_row_policy_witness :
    (assign_country_codes country_code_mapping pycountry_lookup dfAtlantis)[0]?
      = some { country := stripN [65, 116, 108, 97, 110, 116, 105, 115],
               gender := 0, ageGroup := 0, year := 2000,
               rates := [("IncidenceRate", some 1)],
               code := get_country_code country_code_mapping pycountry_lookup
                         (stripN [65, 116, 108, 97, 110, 116, 105, 115]) } :=
  (c2_resolution_row_policy country_code_mapping pycountry_lookup
      dfAtlantis).2.1 0
    ⟨[65, 116, 108, 97, 110, 116, 105, 115], 0, 0, 2000,
      [("IncidenceRate", some 1)], none⟩ (by rfl)

/-- Counterexample for C2 as stated: the cleaned disease-metrics output is
not free of unresolvable rows — the "Atlantis" row is not excluded; it
remains in the cleaned output carrying an absent Country_Code join key. -/
theorem c2_counterexample :
    ¬ ∀ r ∈ assign_country_codes country_code_mapping pycountry_lookup
          dfAtlantis, r.code ≠ none := by
  decide

/-! ### C6: GDP sanity rule -/

/-- C6 (amended): the negative-GDP rule runs after the imputation loop, and
as a consequence every GDP cell of the persisted frame is either missing or
non-negative. -/
theorem c6_final_gdp_nonneg (est : List Row → String → Nat → ℚ)
    (df : List Row) :
    ∀ r ∈ pipeline_tail est df, ∀ v, r.getCol "GDP" = some v → 0 ≤ v := by
  intro r hr v hv
  rw [pipeline_tail] at hr
  rcases List.mem_map.mp hr with ⟨r0, _, hmap⟩
  by_cases h0 : ∃ w, r0.getCol "GDP" = some w
  · rcases h0 with ⟨w, hw⟩
    rw [← hmap, hw] at hv
    have hv' : (if w < 0 then r0.setCol "GDP" none else r0).getCol "GDP" = some v := hv
    by_cases hneg : w < 0
    · rw [if_pos hneg] at hv'
      have h2 : colVal (setVal r0.metrics "GDP" none) "GDP" = none :=
        colVal_setVal_some r0.metrics "GDP" none w hw
      rw [show (r0.setCol "GDP" none).getCol "GDP" = none from h2] at hv'
      exact absurd hv' (by simp)
    · rw [if_neg hneg] at hv'
      rw [hw] at hv'
      injection hv' with h3
      subst h3
      exact le_of_not_lt hneg
  · have hnone : r0.getCol "GDP" = none := by
      cases he : r0.getCol "GDP" with
      | none => rfl
      | some w => exact absurd ⟨w, he⟩ h0
    rw [← hmap, hnone] at hv
    rw [hnone] at hv
    exact absurd hv (by simp)

/-- Witness for C6: a concrete missing GDP cell is imputed to 5 and
survives the sanity rule non-negative. -/
theorem c6_final_gdp_nonneg_witness :
    (⟨"A", some "AAA", 2000, none, [("GDP", some 5)]⟩ : Row)
        ∈ pipeline_tail estFive dfGDPOne
    ∧ (0 : ℚ) ≤ 5 :=
  ⟨by decide,
   c6_final_gdp_nonneg estFive dfGDPOne
     ⟨"A", some "AAA", 2000, none, [("GDP", some 5)]⟩ (by decide) 5 (by decide)⟩

/-- Counterexample for C6 as stated: the code does not replace negative GDP
values before imputation — running the claimed order (clamp, then impute)
on a concrete frame with a negative raw GDP value gives a different result
from the code's order (impute, then clamp), because the negative value is
still present in the frame the imputer is fit on. -/
theorem c6_counterexample :
    pipeline_tail estSum dfGDP ≠ pipeline_tail_claimed estSum dfGDP := by
  decide

/-! ### C3: region classification -/

theorem lookup_mem_values (l : List (String × String)) (k v : String)
    (h : l.lookup k = some v) : v ∈ l.map Prod.snd := by
  induction l with
  | nil => simp [List.lookup] at h
  | cons p t ih =>
    cases p with
    | mk k' v' =>
      simp only [List.lookup] at h
      split at h
      · injection h with h2
        subst h2
        exact List.mem_cons_self _ _
      · exact List.mem_cons_of_mem _ (ih h)

/-- C3 (amended): for a code that is in the manual override table, or a
three-letter code whose alpha-2 form is covered by the converter's
continent table, `get_region` returns normally with one of the fixed
region names or the sentinel "Unknown Region" — it never returns null.
(Valid alpha-3 codes outside both tables instead raise `KeyError`, see the
counterexample.) -/
theorem c3_get_region_covered (code : String)
    (h : (manual_region_mapping.lookup code).isSome
      ∨ (code.length = 3 ∧ ∃ c2, alpha3_to_alpha2 code = some c2
           ∧ (alpha2_to_continent_code.lookup c2).isSome)) :
    returnsRegionName (get_region code) := by
  unfold returnsRegionName
  cases hm : manual_region_mapping.lookup code with
  | some region =>
    refine ⟨region, ?_, ?_⟩
    · rw [get_region, hm]
    · have hall : ∀ x ∈ manual_region_mapping.map Prod.snd,
          x ∈ region_names := by decide
      exact hall region (lookup_mem_values manual_region_mapping code region hm)
  | none =>
    rcases h with h1 | ⟨hlen, c2, hc2, hcc⟩
    · rw [hm] at h1
      simp at h1
    · rcases Option.isSome_iff_exists.mp hcc with ⟨cc, hcc2⟩
      cases hcm : continent_map.lookup cc with
      | some region =>
        refine ⟨region, ?_, ?_⟩
        · simp [get_region, hm, hlen, hc2, hcc2, hcm]
        · have hall : ∀ x ∈ continent_map.map Prod.snd,
              x ∈ region_names := by decide
          exact hall region (lookup_mem_values continent_map cc region hcm)
      | none =>
        refine ⟨"Unknown Region", ?_, by decide⟩
        simp [get_region, hm, hlen, hc2, hcc2, hcm]

/-- Witness for C3: the valid code USA is classified normally. -/
theorem c3_get_region_covered_witness :
    returnsRegionName (get_region "USA") :=
  c3_get_region_covered "USA" (Or.inr ⟨by decide, "US", by decide, by decide⟩)

/-- Counterexample for C3 as stated: VAT is a valid ISO alpha-3 code (it is
in the modelled registry), yet `get_region "VAT"` raises `KeyError` from
the continent-code conversion instead of returning the sentinel, because
VA is one of the alpha-2 codes absent from the converter's table and VAT is
not in the manual override table. -/
theorem c3_counterexample :
    ("VAT", "VA") ∈ pycountry_alpha3_to_alpha2
    ∧ get_region "VAT" = Except.error "KeyError" :=
  ⟨by decide, rfl⟩

/-! ### C8: adding missing years -/

theorem mem_foldl_pdUnique (l : List String) :
    ∀ (acc : List String) (a : String), a ∈ acc ∨ a ∈ l →
      a ∈ l.foldl (fun acc a => if a ∈ acc then acc else acc ++ [a]) acc := by
  induction l with
  | nil =>
    intro acc a h
    rcases h with h | h
    · exact h
    · exact absurd h (List.not_mem_nil a)
  | cons b t ih =>
    intro acc a h
    rw [List.foldl_cons]
    apply ih
    rcases h with h | h
    · left
      by_cases hb : b ∈ acc
      · rw [if_pos hb]; exact h
      · rw [if_neg hb]; exact List.mem_append_left _ h
    · rcases List.mem_cons.mp h with rfl | ht
      · left
        by_cases hb : a ∈ acc
        · rw [if_pos hb]; exact hb
        · rw [if_neg hb]
          exact List.mem_append_right _ (by simp)
      · right
        exact ht

theorem mem_pdUnique (l : List String) (a : String) (h : a ∈ l) :
    a ∈ pdUnique l :=
  mem_foldl_pdUnique l [] a (Or.inr h)

theorem mem_missingYears (y : Int) (h1 : 1960 ≤ y) (h2 : y < 1990) :
    y ∈ missingYears := by
  have hy : y = ((y.toNat : Nat) : Int) := by omega
  rw [missingYears, hy]
  apply List.mem_map_of_mem
  rw [List.mem_range'_1]
  omega

/-- C8 (amended): both add-missing-years implementations synthesize, for
every country of the input frame and every year 1960-1989, a placeholder
row keyed identically to organic rows (same Country, the country's first
Country_Code) with every metric column missing.  The diabetes
implementation appends these to the organic rows without deduplication, so
duplicate (Country, Year) pairs occur whenever the input already covers a
year in 1960-1989 (see the counterexample); the main-pipeline
implementation returns the placeholder rows alone. -/
theorem c8_missing_years_placeholders (df : List DbRow) (c : String)
    (hc : c ∈ df.map (fun r => r.location)) (y : Int)
    (h1 : 1960 ≤ y) (h2 : y < 1990) :
    hasPlaceholder (adding_missing_years df) df c y
    ∧ hasPlaceholder (add_missing_years df) df c y := by
  have hrow : ({ location := c, code := firstCode df c, year := y,
                 extras := (extraCols df).map (fun n => (n, none)) } : DbRow)
      ∈ placeholderRows df := by
    rw [placeholderRows]
    apply List.mem_flatMap.mpr
    refine ⟨c, mem_pdUnique _ c hc, ?_⟩
    apply List.mem_map.mpr
    exact ⟨y, mem_missingYears y h1 h2, rfl⟩
  have hextras : ∀ p ∈ (extraCols df).map
      (fun n => ((n, none) : String × Option ℚ)), p.2 = none := by
    intro p hp
    rcases List.mem_map.mp hp with ⟨n, _, rfl⟩
    rfl
  constructor
  · unfold hasPlaceholder
    refine ⟨{ location := c, code := firstCode df c, year := y,
              extras := (extraCols df).map (fun n => (n, none)) },
            ?_, rfl, rfl, rfl, hextras⟩
    rw [adding_missing_years,
      List.Perm.mem_iff (List.mergeSort_perm _ _)]
    exact List.mem_append_right _ hrow
  · unfold hasPlaceholder
    exact ⟨{ location := c, code := firstCode df c, year := y,
             extras := (extraCols df).map (fun n => (n, none)) },
           hrow, rfl, rfl, rfl, hextras⟩

/-- Witness for C8: the concrete one-row frame gets a placeholder row for
("X", 1970). -/
theorem c8_missing_years_placeholders_witness :
    hasPlaceholder (adding_missing_years dfDiab1985) dfDiab1985 "X" 1970 :=
  (c8_missing_years_placeholders dfDiab1985 "X" (by decide) 1970
    (by decide) (by decide)).1

/-- Counterexample for C8 as stated: on a frame whose organic row already
has year 1985, `_adding_missing_years` produces the pair ("X", 1985)
twice — the organic row and the synthesized placeholder — so a (Country,
Year) pair does occur more than once in the resulting frame. -/
theorem c8_counterexample :
    (adding_missing_years dfDiab1985).countP
        (fun r => r.location == "X" && r.year == 1985) = 2 := by
  rw [adding_missing_years,
    List.Perm.countP_eq _ (List.mergeSort_perm _ _)]
  decide

/-! ### C10: disease-metrics imputation -/

/-- C10 (confirmed): `_impute_with_polynomial_fit` returns the frame
unchanged when the target column has no missing value; otherwise it
rewrites exactly the previously-missing target cells, each to the model's
prediction clamped at zero, so every written value is non-negative and no
other cell of any row changes. -/
theorem c10_disease_imputation_clamped (model : List (Int × ℚ) → Int → ℚ)
    (df : List DiseaseRow) (target : String) :
    ((∀ r ∈ df, (colVal r.rates target).isSome) →
        impute_with_polynomial_fit model df target = df)
    ∧ ((¬ ∀ r ∈ df, (colVal r.rates target).isSome) →
        impute_with_polynomial_fit model df target
          = df.map (fun r =>
              if (colVal r.rates target).isSome then r
              else { r with
                     rates := setVal r.rates target
                       (some (max (model (trainPairs df target) r.year) 0)) }))
    ∧ (∀ r ∈ df, hasCol r.rates target = true →
        ∀ v, colVal (setVal r.rates target
                (some (max (model (trainPairs df target) r.year) 0))) target
              = some v → 0 ≤ v) := by
  refine ⟨?_, ?_, ?_⟩
  · intro h
    have hcount : df.countP (fun r => (colVal r.rates target).isNone) = 0 := by
      rw [List.countP_eq_zero]
      intro r hr
      have hs := h r hr
      cases hval : colVal r.rates target with
      | none => rw [hval] at hs; simp at hs
      | some w => simp [hval]
    rw [impute_with_polynomial_fit, if_pos hcount]
  · intro hn
    have hcount : ¬ df.countP (fun r => (colVal r.rates target).isNone) = 0 := by
      intro h0
      apply hn
      intro r hr
      have hz := List.countP_eq_zero.mp h0 r hr
      cases hval : colVal r.rates target with
      | none => rw [hval] at hz; simp at hz
      | some w => simp [hval]
    have hne : ¬ df.isEmpty = true := by
      intro hemp
      apply hn
      intro r hr
      rw [List.isEmpty_iff] at hemp
      subst hemp
      simp at hr
    rw [impute_with_polynomial_fit, if_neg hcount, if_neg hne]
  · intro r _ hcol v hv
    rw [colVal_setVal_same r.rates target _ hcol] at hv
    injection hv with hv2
    subst hv2
    exact le_max_right _ _

/-- Witness for C10: on a concrete frame with a missing cell and an
always-negative model, the imputation rewrites exactly the missing cell
(clamped to 0). -/
theorem c10_disease_imputation_clamped_witness :
    impute_with_polynomial_fit modelNeg dfDisease "IncidenceRate"
      = dfDisease.map (fun r =>
          if (colVal r.rates "IncidenceRate").isSome then r
          else { r with
                 rates := setVal r.rates "IncidenceRate"
                   (some (max (modelNeg
                     (trainPairs dfDisease "IncidenceRate") r.year) 0)) }) :=
  (c10_disease_imputation_clamped modelNeg dfDisease "IncidenceRate").2.1
    (by decide)

end HeartDashboard
